import Mathlib

/-!
Shallow embedding of the membank persistence layer
(src/membank/interface.py and src/membank/datamapper.py).

Dataclass records are modelled as flat field/value rows, the sqlite
metadata plus backing store as a list of tables (the two are kept in
sync by the code after every schema mutation, so one list models both).
The modules membank.datamethods, membank.errors and membank.utils are
not part of the given sources; functions from them are modelled from
the specification and say so in their doc comments.
-/

namespace Membank

/-- Reserved registry table name (interface.py:190, datamapper.py:27). -/
def registryName : String := "__meta_dataclasses__"

/-- One dataclass field: its name and whether its metadata carries the
"key" role (tests/test_interface.py Transaction.id). -/
structure Field where
  name : String
  isKey : Bool
deriving DecidableEq

/-- A dataclass shape: class name and ordered field list. -/
structure RecordType where
  name : String
  fields : List Field
deriving DecidableEq

/-- Storable scalar values.  vblob models a pickled RecordType snapshot
by its content (pickle is an injective codec, datamapper.py:42,48);
vbytes models raw byte blobs such as the TableClass default b"". -/
inductive Value where
  | vstr : String → Value
  | vint : Int → Value
  | vbytes : List Nat → Value
  | vblob : RecordType → Value
  | vnone : Value
deriving DecidableEq

/-- A stored row: field name to value mapping, as data.asdict yields. -/
abbrev Row := List (String × Value)

/-- A dataclass instance: its shape and its field values. -/
structure Record where
  cls : RecordType
  vals : Row
deriving DecidableEq

/-- A live relational table: name, declared columns, rows in insertion
order.  The engine-assigned sqlite rowid is implicit and never a
declared column (spec s3, s6). -/
structure Table where
  name : String
  columns : List String
  rows : List Row
deriving DecidableEq

/-- The store: reflected metadata and backing tables (kept wholesale in
sync by refresh after every schema mutation, spec s5). -/
structure State where
  tables : List Table
deriving DecidableEq

/-- Error taxonomy: GeneralMemoryError, MemoryFilteringError and the
internal MemoryOutOfSyncError from membank.errors; consistencyError is
the fatal error the spec (s7) says a repeated out-of-sync signal is
promoted to; attributeError is the Python builtin AttributeError, which
escapes from Mapper.get_class (datamapper.py:40). -/
inductive MemErr where
  | generalError (msg : String)
  | filteringError (tableName previousName : String)
  | outOfSyncError
  | consistencyError
  | attributeError (msg : String)
deriving DecidableEq

/-- Value of a field in a row (first binding wins, as in a dict). -/
def rowGet (row : Row) (k : String) : Option Value :=
  (row.find? (fun kv => decide (kv.fst = k))).map (fun kv => kv.snd)

/-- Metadata lookup: metadata.tables[name] membership. -/
def lookupTable (st : State) (name : String) : Option Table :=
  st.tables.find? (fun t => decide (t.name = name))

/-- LoadMemory._get_sql_table (interface.py:160-164): raises
GeneralMemoryError when the table is not in the metadata. -/
def getSqlTable (st : State) (name : String) : Except MemErr Table :=
  match lookupTable st name with
  | none => .error (.generalError ("Table " ++ name ++ " does not exist"))
  | some t => .ok t

/-- Replace every metadata entry carrying the given name. -/
def updateTable (st : State) (name : String) (t2 : Table) : State :=
  { tables := st.tables.map (fun t => if t.name = name then t2 else t) }

/-- bundle_item (interface.py:14-23): scan the fields for "key"
metadata; the last key-marked field wins. -/
def bundle_item (item : Record) : Option String :=
  item.cls.fields.foldl (fun acc f => if f.isKey then some f.name else acc) none

/-- Modelled from the spec: membank.utils.get_class_name is not under
src; per s2/s4.4 the table name is the record type name lower-cased.
RecordType.name is taken to hold that lower-cased name already, so the
function is the projection. -/
def get_class_name (cls : RecordType) : String :=
  cls.name

/-- Modelled from the spec: membank.utils.assert_table_name is not
under src; it validates the input is a dataclass instance (our Record
type enforces that structurally) and returns the lower-cased name. -/
def assert_table_name (item : Record) : String :=
  get_class_name item.cls

/-- Attribute names owned by the LoadMemory facade, as dir(self) would
report for the methods defined in interface.py (inherited object
dunders omitted; they are not legal lower-cased dataclass names here). -/
def facadeDir : List String :=
  ["clean_all_data", "delete", "get", "put", "reset", "sync",
   "_get_sql_table", "_get_engine", "_get_class", "_put_class"]

/-- The TableClass dataclass shape (datamapper.py:10-16): fields table
and classload, neither carrying key metadata. -/
def TableClassRT : RecordType :=
  { name := "tableclass",
    fields := [{ name := "table", isKey := false },
               { name := "classload", isKey := false }] }

/-- TableClass() with its defaults table="" and classload=b""
(datamapper.py:28). -/
def tableClassDefault : Record :=
  { cls := TableClassRT,
    vals := [("table", Value.vstr ""), ("classload", Value.vbytes [])] }

/-- Modelled from the spec: membank.datamethods.create_table is not
under src; per s4.2 it creates a table named after the type with one
column per field, empty; the engine identifier stays implicit (s3). -/
def create_table (name : String) (item : Record) (st : State) : State :=
  { tables := st.tables ++ [{ name := name, columns := item.cls.fields.map Field.name, rows := [] }] }

/-- A row satisfies every keyword equality filter. -/
def rowMatchesKw (r : Row) (kw : Row) : Bool :=
  kw.all (fun kv => decide (rowGet r kv.fst = some kv.snd))

/-- Some keyword filter references a column the table lacks. -/
def kwMissingColumn (t : Table) (kw : Row) : Bool :=
  kw.any (fun kv => !(t.columns.any (fun c => decide (c = kv.fst))))

/-- Modelled from the spec: the Record Codec decode (s4.3): project the
row onto the declared fields, dropping unknown columns; a declared
field missing from the row is a validation failure. -/
def decode (row : Row) (cls : RecordType) : Except MemErr Record :=
  if cls.fields.all (fun f => (rowGet row f.name).isSome) then
    .ok { cls := cls,
          vals := cls.fields.filterMap (fun f => (rowGet row f.name).map (fun v => (f.name, v))) }
  else .error (.generalError "record field missing from stored row")

/-- Two rows agree on the identity field. -/
def sameKeyVal (k : String) (r1 r2 : Row) : Bool :=
  decide (rowGet r1 k = rowGet r2 k)

/-- Modelled from the spec: membank.datamethods.update_item is not
under src; per s7 the write signals MemoryOutOfSyncError when it
references a column the live table lacks, and per s4.4 it overwrites
the row with the same identity value when one exists, else inserts. -/
def update_item (t : Table) (item : Record) (key : Option String) :
    Except MemErr Table :=
  if item.vals.any (fun kv => !(t.columns.any (fun c => decide (c = kv.fst)))) then
    .error .outOfSyncError
  else
    match key with
    | some k =>
      if t.rows.any (fun r => sameKeyVal k r item.vals) then
        .ok { t with rows := t.rows.map (fun r => if sameKeyVal k r item.vals then item.vals else r) }
      else .ok { t with rows := t.rows ++ [item.vals] }
    | none => .ok { t with rows := t.rows ++ [item.vals] }

/-- Modelled from the spec: membank.datamethods.get_item is not under
src; per s4.4 it returns the single most-recently-matching record, or
none when nothing matches; a filter on a column the table lacks is the
out-of-sync signal (s7). -/
def get_item (t : Table) (cls : RecordType) (kw : Row) :
    Except MemErr (Option Record) :=
  if kwMissingColumn t kw then .error .outOfSyncError
  else
    match (t.rows.filter (fun r => rowMatchesKw r kw)).getLast? with
    | none => .ok none
    | some r =>
      match decode r cls with
      | .error e => .error e
      | .ok rec => .ok (some rec)

/-- Comparison operators built by the facade (spec s3). -/
inductive CmpOp where
  | ceq | cne | clt | cle | cgt | cge
deriving DecidableEq

/-- Value ordering where comparable (numbers, strings). -/
def valLe : Value → Value → Bool
  | .vint a, .vint b => decide (a ≤ b)
  | .vstr a, .vstr b => decide (a ≤ b)
  | _, _ => false

/-- Modelled from the spec: a Comparison produced by FilterOperator
(membank.datamethods, not under src): the captured sql table handle
(none when the metadata had no such table, which is why the tuple then
has no name attribute), the field, operator and operand (s3). -/
structure Cmp where
  table : Option Table
  field : String
  op : CmpOp
  operand : Value
deriving DecidableEq

/-- Evaluate one comparison against a row. -/
def evalCmp (r : Row) (c : Cmp) : Bool :=
  match rowGet r c.field with
  | none => false
  | some v =>
    match c.op with
    | .ceq => decide (v = c.operand)
    | .cne => !(decide (v = c.operand))
    | .cle => valLe v c.operand
    | .clt => valLe v c.operand && !(decide (v = c.operand))
    | .cge => valLe c.operand v
    | .cgt => valLe c.operand v && !(decide (v = c.operand))

/-- Modelled from the spec: membank.datamethods.get_list is not under
src; per s4.4/s5 it returns all matching records in insertion order;
keyword filters on columns the table lacks raise the out-of-sync
signal (s7). -/
def get_list (t : Table) (cls : RecordType) (cmps : List Cmp) (kw : Row) :
    Except MemErr (List Record) :=
  if kwMissingColumn t kw then .error .outOfSyncError
  else
    (t.rows.filter (fun r => cmps.all (fun c => evalCmp r c) && rowMatchesKw r kw)).mapM
      (fun r => decode r cls)

/-- Modelled from the spec: membank.datamethods.delete_item is not
under src; it removes the rows matching every passed field/value pair.
The facade passes data.asdict(item), i.e. every field of the record,
identity included (interface.py:185). -/
def delete_item (t : Table) (kw : Row) : Table :=
  { t with rows := t.rows.filter (fun r => !(rowMatchesKw r kw)) }

/-- Mapper.put_class (datamapper.py:44-54): upsert the pickled shape
into the registry keyed on the table column.  The fallback branches
are unreachable: the bootstrap invariant keeps the registry table
present with exactly the columns table and classload. -/
def put_class (st : State) (name : String) (cls : RecordType) : State :=
  match lookupTable st registryName with
  | none => st
  | some reg =>
    match update_item reg
        { cls := TableClassRT,
          vals := [("table", Value.vstr name), ("classload", Value.vblob cls)] }
        (some "table") with
    | .ok reg2 => updateTable st registryName reg2
    | .error _ => st

/-- The message of the AttributeError raised at datamapper.py:40 (the
quotes of the Python message are dropped). -/
def attributeErrorMsg : String := "str object has no attribute name"

/-- Mapper.get_class (datamapper.py:32-42): before the registry lookup
the body builds the filter dict by reading the name attribute off its
argument, but every caller routes the plain table-name string through
LoadMemory._get_class (interface.py:44, 79, 203 via 172), and a Python
str has no name attribute, so the call unconditionally raises
AttributeError and the keyed lookup is never reached. -/
def mapper_get_class (_st : State) (_name : String) : Except MemErr RecordType :=
  .error (.attributeError attributeErrorMsg)

/-- Modelled from the spec: membank.datamethods.sync_table is not
under src; per s4.2 synchronize re-derives the table shape from the
record type, adding the missing columns. -/
def sync_table (t : Table) (cls : RecordType) : Table :=
  { t with columns := t.columns ++ (cls.fields.map Field.name).filter (fun f => !(t.columns.any (fun c => decide (c = f)))) }

/-- LoadMemory.sync (interface.py:207-213): store the shape, sync the
live table, refresh.  The fallback branch is unreachable from the
facade: sync is only invoked for tables present in the metadata. -/
def syncOp (st : State) (cls : RecordType) : State :=
  let table := get_class_name cls
  let st1 := put_class st table cls
  match lookupTable st1 table with
  | none => st1
  | some t => updateTable st1 table (sync_table t cls)

/-- The two-attempt repair pattern shared verbatim by put, the
attribute getter and the call getter (interface.py:46-51, 80-90,
200-205): try, catch MemoryOutOfSyncError once, return the outcome of
the single retry unchanged; any other first outcome passes through. -/
def retryOnce {α : Type} (first retry : Except MemErr α) : Except MemErr α :=
  match first with
  | .ok a => .ok a
  | .error .outOfSyncError => retry
  | .error (.generalError m) => .error (.generalError m)
  | .error (.filteringError a b) => .error (.filteringError a b)
  | .error .consistencyError => .error .consistencyError
  | .error (.attributeError m) => .error (.attributeError m)

/-- Mapper init (datamapper.py:24-30): bootstrap the registry table
structurally from TableClass when absent, then reflect. -/
def mapperInit (st : State) : State :=
  if (lookupTable st registryName).isSome then st
  else create_table registryName tableClassDefault st

/-- LoadMemory init on sqlite :memory: (interface.py:113-149): empty
reflected metadata, then the Mapper bootstrap. -/
def initState : State := mapperInit { tables := [] }

/-- LoadMemory.reset (interface.py:215-219): drop everything, clear
the metadata, then rebuild the Mapper, whose init immediately
recreates the registry bootstrap table. -/
def reset (_ : State) : State :=
  mapperInit { tables := [] }

/-- The effect of drop plus create_all on one table during
clean_all_data: the registry is left alone, any other table keeps its
metadata shape and loses its rows. -/
def wipeRow (t : Table) : Table :=
  if t.name = registryName then t else { t with rows := [] }

/-- LoadMemory.clean_all_data (interface.py:221-226): pop the registry
out of the drop set (a KeyError when it is somehow absent), drop every
other table, then create_all restores each dropped table empty from
the retained metadata. -/
def clean_all_data (st : State) : Except MemErr State :=
  match lookupTable st registryName with
  | none => .error (.generalError "KeyError on __meta_dataclasses__")
  | some _ => .ok { tables := st.tables.map wipeRow }

/-- LoadMemory.delete (interface.py:178-185): GeneralMemoryError when
the table is absent (before any storage access), else delete_item with
the full asdict of the record. -/
def delete (st : State) (item : Record) : Except MemErr State :=
  match lookupTable st (assert_table_name item) with
  | none => .error (.generalError
      ("Memory cannot be deleted as table " ++ assert_table_name item ++
       " does not exist"))
  | some t =>
    .ok (updateTable st (assert_table_name item) (delete_item t item.vals))

/-- The storage-write phase of LoadMemory.put (interface.py:197-205):
resolve the table, compute the key from bundle_item, then the
try/except-once retry around update_item; the except handler first
fetches the class from the registry and only if that returns does it
sync, re-resolve the table and retry. -/
def putWrite (st : State) (table : String) (item : Record) :
    Except MemErr State :=
  match getSqlTable st table with
  | .error e => .error e
  | .ok t =>
    retryOnce
      (match update_item t item (bundle_item item) with
       | .error e => .error e
       | .ok t2 => .ok (updateTable st table t2))
      (match mapper_get_class st table with
       | .error e => .error e
       | .ok cls =>
         match getSqlTable (syncOp st cls) table with
         | .error e => .error e
         | .ok t2 =>
           match update_item t2 item (bundle_item item) with
           | .error e => .error e
           | .ok t3 => .ok (updateTable (syncOp st cls) table t3))

/-- LoadMemory.put (interface.py:187-205): reserved-name guard, table
creation plus shape registration for a new name, then the write. -/
def put (st : State) (item : Record) : Except MemErr State :=
  if (lookupTable st (assert_table_name item)).isNone ∨ assert_table_name item = registryName then
    if facadeDir.contains (assert_table_name item) ∨ assert_table_name item = registryName then
      .error (.generalError
        "Memory cannot be created, such name is reserved by membank")
    else
      putWrite (put_class (create_table (assert_table_name item) item st) (assert_table_name item) item.cls)
        (assert_table_name item) item
  else
    putWrite st (assert_table_name item) item

/-- The positional arguments accepted by MemoryBlob.__call__: a table
name string or a comparison tuple (interface.py:56-78). -/
inductive Instr where
  | nameArg : String → Instr
  | cmpArg : Cmp → Instr
deriving DecidableEq

/-- The instruction loop of MemoryBlob.__call__ (interface.py:66-78):
a comparison whose captured table has no name returns the empty list
early; otherwise comparisons accumulate and a table name switch raises
MemoryFilteringError; a plain name resolves through _get_sql_table. -/
def getLoop (st : State) (instrs : List Instr) (filtering : List Cmp)
    (previousName : String) (sqlTable : Option Table) :
    Except MemErr (Option (List Cmp × String × Option Table)) :=
  match instrs with
  | [] => .ok (some (filtering, previousName, sqlTable))
  | Instr.cmpArg c :: rest =>
    match c.table with
    | none => .ok none
    | some t =>
      if previousName ≠ "" ∧ previousName ≠ t.name then
        .error (.filteringError t.name previousName)
      else getLoop st rest (filtering ++ [c]) t.name (some t)
  | Instr.nameArg s :: rest =>
    match getSqlTable st s with
    | .error e => .error e
    | .ok t =>
      if previousName ≠ "" ∧ previousName ≠ s then
        .error (.filteringError s previousName)
      else getLoop st rest filtering s (some t)

/-- MemoryBlob.__call__ (interface.py:56-90): the zero-argument guard,
the instruction loop, the registry class lookup, then get_list under
the catch-once retry.  The unbound branch is unreachable: every loop
iteration binds the table handle. -/
def getCall (st : State) (instrs : List Instr) (kw : Row) :
    Except MemErr (State × List Record) :=
  if instrs.isEmpty then
    .error (.generalError "There must be at least one valid comparison to get items")
  else
    match getLoop st instrs [] "" none with
    | .error e => .error e
    | .ok none => .ok (st, [])
    | .ok (some (filtering, previousName, sqlTable)) =>
      match sqlTable with
      | none => .error (.generalError "sql table never bound")
      | some t =>
        match mapper_get_class st previousName with
        | .error e => .error e
        | .ok returnClass =>
          retryOnce
            (match get_list t returnClass filtering kw with
             | .error e => .error e
             | .ok l => .ok (st, l))
            (match getSqlTable (syncOp st returnClass) previousName with
             | .error e => .error e
             | .ok t2 =>
               match get_list t2 returnClass filtering kw with
               | .error e => .error e
               | .ok l => .ok (syncOp st returnClass, l))

/-- MemoryBlob.__getter reached through attribute access
(interface.py:39-54): resolve the table and the registry class before
the try, then get_item under the catch-once retry. -/
def getAttr (st : State) (name : String) (kw : Row) :
    Except MemErr (State × Option Record) :=
  match getSqlTable st name with
  | .error e => .error e
  | .ok t =>
    match mapper_get_class st name with
    | .error e => .error e
    | .ok cls =>
      retryOnce
        (match get_item t cls kw with
         | .error e => .error e
         | .ok r => .ok (st, r))
        (match getSqlTable (syncOp st cls) name with
         | .error e => .error e
         | .ok t2 =>
           match get_item t2 cls kw with
           | .error e => .error e
           | .ok r => .ok (syncOp st cls, r))

/-- The registry bootstrap table as Mapper.__init__ creates it. -/
def regTable : Table :=
  { name := registryName, columns := ["table", "classload"], rows := [] }

/-- The name a comparison references, when its captured table has one. -/
def cmpName (c : Cmp) : Option String :=
  c.table.map Table.name

/-! Concrete instances used by witnesses and counterexamples, mirroring
the shapes in tests/test_interface.py. -/

/-- The Dog shape as first registered, one field. -/
def dogOld : RecordType :=
  { name := "dog", fields := [{ name := "breed", isKey := false }] }

/-- The Dog shape after the caller added a field (spec s8 drift). -/
def dogNew : RecordType :=
  { name := "dog", fields := [{ name := "breed", isKey := false }, { name := "color", isKey := false }] }

/-- A Dog instance of the grown shape. -/
def dogNewRec : Record :=
  { cls := dogNew, vals := [("breed", Value.vstr "Rex"), ("color", Value.vstr "black")] }

/-- The dog table as created under the old one-field shape. -/
def driftDogTable : Table :=
  { name := "dog", columns := ["breed"], rows := [[("breed", Value.vstr "Rex")]] }

/-- A store whose dog table and snapshot still carry the old one-field
shape while the caller holds the grown shape: the spec s8 drift
scenario, as left by a put of the old Dog before the field was added. -/
def driftState : State :=
  { tables := [ { name := registryName, columns := ["table", "classload"],
                  rows := [[("table", Value.vstr "dog"), ("classload", Value.vblob dogOld)]] },
                driftDogTable ] }

/-- The Transaction shape with its key-marked id field. -/
def transactionRT : RecordType :=
  { name := "transaction",
    fields := [{ name := "amount", isKey := false }, { name := "description", isKey := false },
               { name := "id", isKey := true }] }

/-- A Transaction instance with its derived id already filled in. -/
def trRec : Record :=
  { cls := transactionRT,
    vals := [("amount", Value.vint 50), ("description", Value.vstr "t"),
             ("id", Value.vstr "special_id:t")] }

/-- The transaction table holding exactly the row of trRec. -/
def trTable : Table :=
  { name := "transaction", columns := ["amount", "description", "id"], rows := [trRec.vals] }

/-- The store after one put of trRec on a fresh store. -/
def putOnceState : State :=
  { tables := [ { name := registryName, columns := ["table", "classload"],
                  rows := [[("table", Value.vstr "transaction"), ("classload", Value.vblob transactionRT)]] },
                trTable ] }

/-- putOnceState after clean_all_data: snapshot kept, data gone. -/
def cleanedState : State :=
  { tables := [ { name := registryName, columns := ["table", "classload"],
                  rows := [[("table", Value.vstr "transaction"), ("classload", Value.vblob transactionRT)]] },
                { name := "transaction", columns := ["amount", "description", "id"], rows := [] } ] }

/-- A live table named a. -/
def tA : Table := { name := "a", columns := ["x"], rows := [] }

/-- A live table named b. -/
def tB : Table := { name := "b", columns := ["x"], rows := [] }

/-- A comparison on table a. -/
def cA : Cmp := { table := some tA, field := "x", op := CmpOp.ceq, operand := Value.vint 1 }

/-- A comparison on table b. -/
def cB : Cmp := { table := some tB, field := "x", op := CmpOp.ceq, operand := Value.vint 2 }

/-- A store holding both live tables a and b. -/
def stAB : State := { tables := [regTable, tA, tB] }

/-- A record type whose lower-cased name collides with the put method. -/
def putRT : RecordType :=
  { name := "put", fields := [{ name := "id", isKey := false }] }

/-- An instance of the colliding type (tests/test_interface.py:260-264). -/
def putRec : Record := { cls := putRT, vals := [("id", Value.vstr "ad")] }

/-! Helper lemmas about lookup, update and the storage write. -/

theorem getSqlTable_ok (st : State) (n : String) (t : Table)
    (h : getSqlTable st n = .ok t) : lookupTable st n = some t ∧ t.name = n := by
  unfold getSqlTable at h
  cases hl : lookupTable st n with
  | none => simp only [hl] at h; exact Except.noConfusion h
  | some t0 =>
    simp only [hl] at h
    cases h
    refine ⟨rfl, ?_⟩
    unfold lookupTable at hl
    have hp := List.find?_some hl
    exact of_decide_eq_true hp

theorem lookupTable_updateTable_self (st : State) (n : String) (t2 : Table)
    (hname : t2.name = n) (hpres : (lookupTable st n).isSome = true) :
    lookupTable (updateTable st n t2) n = some t2 := by
  unfold lookupTable updateTable
  rw [List.find?_map]
  have hcomp : ((fun t => decide (t.name = n)) ∘ fun t => if t.name = n then t2 else t) =
      (fun t => decide (t.name = n)) := by
    funext t
    by_cases ht : t.name = n
    · simp [Function.comp, ht, hname]
    · simp [Function.comp, ht]
  rw [hcomp]
  unfold lookupTable at hpres
  cases hl : st.tables.find? (fun t => decide (t.name = n)) with
  | none => rw [hl] at hpres; simp at hpres
  | some t0 =>
    have hp := List.find?_some hl
    have ht0 : t0.name = n := of_decide_eq_true hp
    simp [ht0]

theorem updateTable_twice (st : State) (n : String) (t2 : Table) :
    updateTable (updateTable st n t2) n t2 = updateTable st n t2 := by
  unfold updateTable
  have hff : ((fun t : Table => if t.name = n then t2 else t) ∘
      fun t : Table => if t.name = n then t2 else t) =
      (fun t : Table => if t.name = n then t2 else t) := by
    funext t
    by_cases ht : t.name = n
    · simp [Function.comp, ht]
    · simp [Function.comp, ht]
  rw [List.map_map, hff]

theorem update_item_ok_meta (t : Table) (item : Record) (key : Option String) (t2 : Table)
    (h : update_item t item key = .ok t2) : t2.name = t.name ∧ t2.columns = t.columns := by
  unfold update_item at h
  split at h
  · exact Except.noConfusion h
  · split at h
    · split at h
      · cases h; exact ⟨rfl, rfl⟩
      · cases h; exact ⟨rfl, rfl⟩
    · cases h; exact ⟨rfl, rfl⟩

theorem sameKeyVal_self (k : String) (r : Row) : sameKeyVal k r r = true := by
  simp [sameKeyVal]

theorem any_upsert (p : Row → Bool) (v : Row) (hv : p v = true) :
    ∀ l : List Row, l.any p = true →
      (l.map (fun r => if p r then v else r)).any p = true := by
  intro l
  induction l with
  | nil => intro h; simp at h
  | cons a l ih =>
    intro h
    by_cases ha : p a = true
    · simp [ha, hv]
    · have ha' : p a = false := by simpa using ha
      simp only [List.any_cons, ha', Bool.false_or] at h
      simp [ha', ih h]

theorem map_upsert_twice (p : Row → Bool) (v : Row) (hv : p v = true) :
    ∀ l : List Row,
      (l.map (fun r => if p r then v else r)).map (fun r => if p r then v else r) =
        l.map (fun r => if p r then v else r) := by
  intro l
  induction l with
  | nil => rfl
  | cons a l ih =>
    by_cases ha : p a = true
    · simp [ha, hv, ih]
    · have ha' : p a = false := by simpa using ha
      simp [ha', ih]

theorem map_no_match (p : Row → Bool) (v : Row) :
    ∀ l : List Row, l.any p = false →
      l.map (fun r => if p r then v else r) = l := by
  intro l
  induction l with
  | nil => intro _; rfl
  | cons a l ih =>
    intro h
    simp only [List.any_cons, Bool.or_eq_false_iff] at h
    simp [h.1, ih h.2]

theorem update_item_idem (t t2 : Table) (item : Record) (k : String)
    (h : update_item t item (some k) = .ok t2) :
    update_item t2 item (some k) = .ok t2 := by
  unfold update_item at h ⊢
  by_cases hcols : item.vals.any (fun kv => !(t.columns.any (fun c => decide (c = kv.fst)))) = true
  · rw [if_pos hcols] at h
    exact Except.noConfusion h
  · rw [if_neg hcols] at h
    simp only [] at h
    by_cases hany : t.rows.any (fun r => sameKeyVal k r item.vals) = true
    · rw [if_pos hany] at h
      cases h
      dsimp only
      rw [if_neg hcols]
      rw [if_pos (any_upsert (fun r => sameKeyVal k r item.vals) item.vals (sameKeyVal_self k item.vals) t.rows hany)]
      rw [map_upsert_twice (fun r => sameKeyVal k r item.vals) item.vals (sameKeyVal_self k item.vals) t.rows]
    · have hany' : t.rows.any (fun r => sameKeyVal k r item.vals) = false := by
        rw [Bool.eq_false_iff]
        exact hany
      rw [if_neg hany] at h
      cases h
      dsimp only
      rw [if_neg hcols]
      have hpos : (t.rows ++ [item.vals]).any (fun r => sameKeyVal k r item.vals) = true := by
        simp [hany', sameKeyVal_self]
      rw [if_pos hpos]
      rw [List.map_append, map_no_match (fun r => sameKeyVal k r item.vals) item.vals t.rows hany']
      simp [sameKeyVal_self]

theorem putWrite_ok_cases (st : State) (table : String) (item : Record) (st1 : State)
    (h : putWrite st table item = .ok st1) :
    ∃ stB t t2, getSqlTable stB table = .ok t ∧
      update_item t item (bundle_item item) = .ok t2 ∧
      st1 = updateTable stB table t2 := by
  unfold putWrite at h
  cases hg : getSqlTable st table with
  | error e => simp only [hg] at h; exact Except.noConfusion h
  | ok t =>
    simp only [hg] at h
    cases hu : update_item t item (bundle_item item) with
    | ok t2 =>
      simp only [hu, retryOnce] at h
      cases h
      exact ⟨st, t, t2, hg, hu, rfl⟩
    | error e =>
      simp only [hu] at h
      cases e with
      | outOfSyncError =>
        simp only [retryOnce] at h
        cases hm : mapper_get_class st table with
        | error e2 => simp only [hm] at h; exact Except.noConfusion h
        | ok cls =>
          simp only [hm] at h
          cases hg2 : getSqlTable (syncOp st cls) table with
          | error e2 => simp only [hg2] at h; exact Except.noConfusion h
          | ok t2 =>
            simp only [hg2] at h
            cases hu2 : update_item t2 item (bundle_item item) with
            | error e2 => simp only [hu2] at h; exact Except.noConfusion h
            | ok t3 =>
              simp only [hu2] at h
              cases h
              exact ⟨syncOp st cls, t2, t3, hg2, hu2, rfl⟩
      | generalError m => simp only [retryOnce] at h; exact Except.noConfusion h
      | filteringError a b => simp only [retryOnce] at h; exact Except.noConfusion h
      | consistencyError => simp only [retryOnce] at h; exact Except.noConfusion h
      | attributeError m => simp only [retryOnce] at h; exact Except.noConfusion h

theorem put_second (st0 st1 : State) (r : Record) (k : String)
    (hk : bundle_item r = some k)
    (hreg : assert_table_name r ≠ registryName)
    (h : putWrite st0 (assert_table_name r) r = .ok st1) :
    put st1 r = .ok st1 := by
  obtain ⟨stB, t, t2, hg, hu, rfl⟩ := putWrite_ok_cases _ _ _ _ h
  obtain ⟨hl, hn⟩ := getSqlTable_ok _ _ _ hg
  rw [hk] at hu
  have hu2 : update_item t2 r (some k) = .ok t2 := update_item_idem _ _ _ _ hu
  have hmeta := update_item_ok_meta _ _ _ _ hu
  have hn2 : t2.name = assert_table_name r := hmeta.1.trans hn
  have hpres : (lookupTable stB (assert_table_name r)).isSome = true := by rw [hl]; rfl
  have hlook : lookupTable (updateTable stB (assert_table_name r) t2) (assert_table_name r) = some t2 :=
    lookupTable_updateTable_self _ _ _ hn2 hpres
  unfold put
  have hcond : ¬((lookupTable (updateTable stB (assert_table_name r) t2) (assert_table_name r)).isNone = true ∨
      assert_table_name r = registryName) := by
    rw [hlook]
    rintro (hno | he)
    · simp at hno
    · exact hreg he
  rw [if_neg hcond]
  unfold putWrite getSqlTable
  simp only [hlook, hk, hu2, retryOnce, updateTable_twice]

/-! Claim theorems. -/

/-- C3: for a record whose identity (key) field is declared and whose
value is stable, a second put leaves the store exactly as the first put
left it: the write is an in-place update, never a duplicate insert. -/
theorem put_idempotent (st st1 : State) (r : Record) (k : String)
    (hk : bundle_item r = some k) (h : put st r = .ok st1) :
    put st1 r = .ok st1 := by
  unfold put at h
  split at h
  · split at h
    · exact Except.noConfusion h
    · rename_i h1 h2
      exact put_second _ _ _ _ hk (fun he => h2 (Or.inr he)) h
  · rename_i h1
    exact put_second _ _ _ _ hk (fun he => h1 (Or.inr he)) h

/-- C3 witness: a transaction put twice on a fresh store. -/
theorem put_idempotent_witness : put putOnceState trRec = .ok putOnceState :=
  put_idempotent initState putOnceState trRec "id" rfl rfl

/-- C1 counterexample: in the spec s8 drift scenario a put surfaces the
Python AttributeError from the broken class lookup in the except
handler: the promised sync-and-retry never runs, and the caller sees
neither a ConsistencyError nor the out-of-sync signal itself. -/
theorem C1_no_consistency_promotion :
    put driftState dogNewRec = .error (.attributeError attributeErrorMsg) ∧
      MemErr.attributeError attributeErrorMsg ≠ MemErr.consistencyError ∧
      MemErr.attributeError attributeErrorMsg ≠ MemErr.outOfSyncError :=
  ⟨rfl, fun h => MemErr.noConfusion h, fun h => MemErr.noConfusion h⟩

/-- C1 amended: the storage write of put sits under a single
except-once handler (interface.py:200-205), but that handler begins
with the registry class lookup, which raises AttributeError
(datamapper.py:40 reads the name attribute off the plain table-name
string passed through interface.py:172), so an out-of-sync signal in
put surfaces to the caller as AttributeError with no sync and no
retry; in the attribute-get and call-get forms the same class lookup
runs before the guarded storage read (interface.py:44, 79), so once
the table is resolved those calls fail with AttributeError and the
signal is never caught at all; nothing is ever promoted to a
ConsistencyError. -/
theorem class_lookup_breaks_repair (st : State) (n : String) (item : Record) (kw : Row)
    (t : Table) (c : Cmp) (tc : Table)
    (hg : getSqlTable st n = .ok t) (hc : c.table = some tc) :
    (update_item t item (bundle_item item) = .error .outOfSyncError →
      putWrite st n item = .error (.attributeError attributeErrorMsg)) ∧
    getAttr st n kw = .error (.attributeError attributeErrorMsg) ∧
    getCall st [Instr.cmpArg c] kw = .error (.attributeError attributeErrorMsg) := by
  refine ⟨?_, ?_, ?_⟩
  · intro hu
    unfold putWrite
    simp only [hg, hu, retryOnce, mapper_get_class]
  · unfold getAttr
    simp only [hg, mapper_get_class]
  · unfold getCall
    rw [if_neg (by simp)]
    have hloop : getLoop st [Instr.cmpArg c] [] "" none =
        .ok (some ([] ++ [c], tc.name, some tc)) := by
      simp only [getLoop, hc]
      rw [if_neg (fun hand => hand.1 rfl)]
    simp only [hloop, mapper_get_class]

/-- C1 amended witness: the drift-scenario put and an attribute get on
the same live table both surface the AttributeError. -/
theorem class_lookup_breaks_repair_witness :
    putWrite driftState "dog" dogNewRec = .error (.attributeError attributeErrorMsg) ∧
    getAttr driftState "dog" [] = .error (.attributeError attributeErrorMsg) :=
  ⟨(class_lookup_breaks_repair driftState "dog" dogNewRec [] driftDogTable cA tA rfl rfl).1 rfl,
   (class_lookup_breaks_repair driftState "dog" dogNewRec [] driftDogTable cA tA rfl rfl).2.1⟩

/-- C2: evaluating the code at the failing input: on a fresh store both
get forms for a missing table raise GeneralMemoryError from
_get_sql_table (interface.py:163) instead of returning the empty list
and None promised by the spec and by tests/test_interface.py:272-276. -/
theorem missing_table_raises :
    getCall initState [Instr.nameArg "thisdoesnotexist"] [] =
      .error (.generalError "Table thisdoesnotexist does not exist") ∧
    getAttr initState "thisdoesnotexist" [] =
      .error (.generalError "Table thisdoesnotexist does not exist") :=
  ⟨rfl, rfl⟩

/-- C7 counterexample: immediately after reset the registry bootstrap
table exists again, recreated by the Mapper the reset constructs. -/
theorem C7_registry_survives_reset :
    lookupTable (reset initState) registryName = some regTable := rfl

/-- C7 amended: reset drops every user table and snapshot, and leaves
exactly one table: the freshly recreated empty registry bootstrap
table, without any reopen of the store. -/
theorem reset_leaves_only_empty_registry (st : State) :
    reset st = { tables := [regTable] } := rfl

/-- C5: a record type whose lower-cased name is the reserved registry
name always makes put raise GeneralMemoryError (the ValidationError of
the spec taxonomy), and one colliding with a facade attribute does so
whenever no live table of that name pre-exists; the error is raised
before create_table and before any storage write. -/
theorem put_reserved (st : State) (r : Record) :
    (assert_table_name r = registryName →
      put st r = .error (.generalError "Memory cannot be created, such name is reserved by membank")) ∧
    (facadeDir.contains (assert_table_name r) = true →
      lookupTable st (assert_table_name r) = none →
      put st r = .error (.generalError "Memory cannot be created, such name is reserved by membank")) := by
  constructor
  · intro hreg
    unfold put
    rw [if_pos (Or.inr hreg), if_pos (Or.inr hreg)]
  · intro hc hl
    unfold put
    rw [if_pos (Or.inl (by rw [hl]; rfl)), if_pos (Or.inl hc)]

/-- C5 witness: a dataclass named Put on a fresh store. -/
theorem put_reserved_witness :
    put initState putRec = .error (.generalError "Memory cannot be created, such name is reserved by membank") :=
  (put_reserved initState putRec).2 rfl rfl

/-- C9: on Mapper construction a missing registry table is created
structurally with exactly the two columns table and classload, and
after construction the registry table is always present. -/
theorem mapper_bootstrap (st : State) :
    (lookupTable st registryName = none →
      mapperInit st = { tables := st.tables ++ [regTable] }) ∧
    (lookupTable (mapperInit st) registryName).isSome = true := by
  constructor
  · intro h
    unfold mapperInit
    rw [if_neg (by rw [h]; simp)]
    rfl
  · unfold mapperInit
    by_cases h : (lookupTable st registryName).isSome = true
    · rw [if_pos h]; exact h
    · rw [if_neg h]
      have hn : lookupTable st registryName = none := by
        cases hl : lookupTable st registryName with
        | none => rfl
        | some t => rw [hl] at h; exact absurd rfl h
      unfold lookupTable create_table
      unfold lookupTable at hn
      rw [List.find?_append, hn]
      rfl

/-- C9 witness: the bootstrap on a store with no tables at all. -/
theorem mapper_bootstrap_witness :
    mapperInit { tables := [] } = { tables := ([] : List Table) ++ [regTable] } :=
  (mapper_bootstrap { tables := [] }).1 rfl

/-- C6: evaluating the code at the failing input of the repo's own
CleanData test (tests/test_interface.py:48-61): the wipe itself behaves
as the claim says at the state level — the registry row holding the
snapshot is intact, the transaction table survives with its columns
and no rows — but get_class raises AttributeError instead of returning
the RecordType, and listing the wiped table through the facade reaches
the same broken class lookup (interface.py:79) and raises
AttributeError instead of returning the empty sequence. -/
theorem clean_wipe_state_ok_but_reads_crash :
    clean_all_data putOnceState = .ok cleanedState ∧
    lookupTable cleanedState registryName =
      some { name := registryName, columns := ["table", "classload"],
             rows := [[("table", Value.vstr "transaction"), ("classload", Value.vblob transactionRT)]] } ∧
    lookupTable cleanedState "transaction" =
      some { name := "transaction", columns := ["amount", "description", "id"], rows := [] } ∧
    mapper_get_class cleanedState "transaction" = .error (.attributeError attributeErrorMsg) ∧
    getCall cleanedState [Instr.nameArg "transaction"] [] =
      .error (.attributeError attributeErrorMsg) :=
  ⟨rfl, rfl, rfl, rfl, rfl⟩

/-- C8: delete raises GeneralMemoryError before any storage access when
no table named after the record exists, and otherwise removes from that
table every stored row matching the record, its identity field
included (the facade passes the full asdict of the record as the
filter). -/
theorem delete_spec (st : State) (item : Record) :
    (lookupTable st (assert_table_name item) = none →
      delete st item = .error (.generalError
        ("Memory cannot be deleted as table " ++ assert_table_name item ++ " does not exist"))) ∧
    (∀ t, lookupTable st (assert_table_name item) = some t →
      delete st item = .ok (updateTable st (assert_table_name item) (delete_item t item.vals)) ∧
      ∀ r ∈ (delete_item t item.vals).rows, rowMatchesKw r item.vals = false) := by
  constructor
  · intro h
    unfold delete
    simp only [h]
  · intro t h
    unfold delete
    simp only [h]
    refine ⟨trivial, ?_⟩
    intro r hr
    unfold delete_item at hr
    dsimp only at hr
    have hm := List.mem_filter.mp hr
    simpa using hm.2

/-- C8 witness: deleting the stored transaction record. -/
theorem delete_spec_witness :
    delete putOnceState trRec =
      .ok (updateTable putOnceState (assert_table_name trRec) (delete_item trTable trRec.vals)) :=
  ((delete_spec putOnceState trRec).2 trTable rfl).1

theorem getLoop_mismatch (st : State) (cs : List Cmp) :
    ∀ (fil : List Cmp) (p : String) (sq : Option Table),
      p ≠ "" →
      (∀ c ∈ cs, (c.table).isSome = true) →
      (∃ c ∈ cs, cmpName c ≠ some p) →
      ∃ a b, getLoop st (cs.map Instr.cmpArg) fil p sq = .error (.filteringError a b) := by
  induction cs with
  | nil =>
    intro fil p sq hp hlive hex
    simp at hex
  | cons c cs ih =>
    intro fil p sq hp hlive hex
    have hc : (c.table).isSome = true := hlive c (List.mem_cons_self c cs)
    cases hct : c.table with
    | none => rw [hct] at hc; simp at hc
    | some t =>
      by_cases hname : t.name = p
      · have hex' : ∃ c2 ∈ cs, cmpName c2 ≠ some t.name := by
          rcases hex with ⟨c1, hc1mem, hc1⟩
          rcases List.mem_cons.mp hc1mem with hhead | htail
          · exfalso
            apply hc1
            rw [hhead]
            simp [cmpName, hct, hname]
          · refine ⟨c1, htail, ?_⟩
            rw [hname]
            exact hc1
        have hlive' : ∀ c2 ∈ cs, (c2.table).isSome = true :=
          fun c2 hm => hlive c2 (List.mem_cons_of_mem c hm)
        have hpne : t.name ≠ "" := by
          rw [hname]
          exact hp
        obtain ⟨a, b, hab⟩ := ih (fil ++ [c]) t.name (some t) hpne hlive' hex'
        refine ⟨a, b, ?_⟩
        simp only [List.map_cons, getLoop, hct]
        rw [if_neg (fun hand => hand.2 hname.symm)]
        exact hab
      · refine ⟨t.name, p, ?_⟩
        simp only [List.map_cons, getLoop, hct]
        rw [if_pos ⟨hp, fun he => hname he.symm⟩]

/-- C4: a get call whose comparison arguments, each over a live table
with a nonempty name, reference two different table names raises
MemoryFilteringError and yields no result. -/
theorem filter_isolation (st : State) (cs : List Cmp) (kw : Row)
    (hlive : ∀ c ∈ cs, (c.table).isSome = true)
    (hnames : ∀ c ∈ cs, cmpName c ≠ some "")
    (hdiff : ∃ c1 ∈ cs, ∃ c2 ∈ cs, cmpName c1 ≠ cmpName c2) :
    ∃ a b, getCall st (cs.map Instr.cmpArg) kw = .error (.filteringError a b) := by
  cases cs with
  | nil => simp at hdiff
  | cons c0 cs =>
    have hc0 : (c0.table).isSome = true := hlive c0 (List.mem_cons_self c0 cs)
    cases hct : c0.table with
    | none => rw [hct] at hc0; simp at hc0
    | some t0 =>
      have ht0ne : t0.name ≠ "" := by
        have hx := hnames c0 (List.mem_cons_self c0 cs)
        simp only [cmpName, hct, Option.map_some'] at hx
        simpa using hx
      have hex : ∃ c2 ∈ cs, cmpName c2 ≠ some t0.name := by
        by_contra hall
        push_neg at hall
        rcases hdiff with ⟨c1, h1, c2, h2, hne⟩
        have hval : ∀ cX ∈ c0 :: cs, cmpName cX = some t0.name := by
          intro cX hm
          rcases List.mem_cons.mp hm with hh | ht
          · rw [hh]
            simp [cmpName, hct]
          · exact hall cX ht
        exact hne ((hval c1 h1).trans (hval c2 h2).symm)
      have hlive' : ∀ c ∈ cs, (c.table).isSome = true :=
        fun c hm => hlive c (List.mem_cons_of_mem c0 hm)
      obtain ⟨a, b, hab⟩ := getLoop_mismatch st cs ([] ++ [c0]) t0.name (some t0) ht0ne hlive' hex
      refine ⟨a, b, ?_⟩
      unfold getCall
      rw [if_neg (by simp)]
      have hloop : getLoop st ((c0 :: cs).map Instr.cmpArg) [] "" none =
          .error (.filteringError a b) := by
        simp only [List.map_cons, getLoop, hct]
        rw [if_neg (fun hand => hand.1 rfl)]
        exact hab
      simp only [hloop]

/-- C4 witness: comparisons over the live tables a and b in one call. -/
theorem filter_isolation_witness :
    ∃ a b, getCall stAB ([cA, cB].map Instr.cmpArg) [] = .error (.filteringError a b) :=
  filter_isolation stAB [cA, cB] [] (by decide) (by decide) (by decide)

/-- C10: a get call with zero positional arguments always raises
GeneralMemoryError demanding at least one valid comparison, before any
table lookup or storage access. -/
theorem get_requires_comparison (st : State) (kw : Row) :
    getCall st [] kw =
      .error (.generalError "There must be at least one valid comparison to get items") := rfl

end Membank
